import Mathlib

/-!
Shallow embedding of the daily-discord-summarizer recap pipeline
(`src/services/digests.rs`, `DailyRecapService::run`).

The loop body of `run` is modelled as a pure function `runCycle` from an
environment (the outcomes of the external dependencies during that tick:
storage read faults, the summarization client, the digest insert, the
`DISCORD_WEBHOOK` variable, the HTTP POST outcome, and the wall clock) and
the current storage state to a `CycleResult`.  `NaiveDateTime` timestamps
are modelled as `Int`, SQLite tables as Lean lists kept in insertion
(rowid) order.  The two read queries are `unwrap`ped in the source, so a
read fault yields a `crash` result (a Rust panic), not a logged abort.

The `db` and `gpt` modules of the repository are not part of the given
source tree; `insert_daily_digest` and the summarization call are modelled
from the spec at their interface (see the doc comments below).
-/

/-- Row of the `summaries` table (`db::Summary`): id, text, timestamp. -/
structure Summary where
  id : Int
  text : String
  timestamp : Int
deriving DecidableEq, Repr

/-- Row of the `daily_digests` table: id, text, timestamp and the covered
summary ids recorded with the digest. -/
structure Digest where
  id : Int
  text : String
  timestamp : Int
  covered_summary_ids : List Int
deriving DecidableEq, Repr

/-- The durable store: the two tables, each in insertion (rowid) order. -/
structure Storage where
  summaries : List Summary
  daily_digests : List Digest
deriving DecidableEq, Repr

/-- Ascending-timestamp ordering on summaries, the `ORDER BY timestamp ASC`
of the pending query. -/
def tsLe (a b : Summary) : Prop := a.timestamp ≤ b.timestamp

instance : DecidableRel tsLe :=
  fun a b => inferInstanceAs (Decidable (a.timestamp ≤ b.timestamp))

instance : IsTotal Summary tsLe := ⟨fun a b => le_total a.timestamp b.timestamp⟩

instance : IsTrans Summary tsLe := ⟨fun _ _ _ h1 h2 => le_trans h1 h2⟩

/-- `SELECT id, timestamp FROM daily_digests ORDER BY timestamp DESC LIMIT 1`:
a row of maximal timestamp, or `none` on an empty table. -/
def lastRecapQuery : List Digest → Option (Int × Int)
  | [] => none
  | d :: ds =>
      match lastRecapQuery ds with
      | none => some (d.id, d.timestamp)
      | some p => if p.2 < d.timestamp then some (d.id, d.timestamp) else some p

/-- The pending-set load (lines 39-52 of `digests.rs`): with a prior digest at
timestamp `ts`, `SELECT * FROM summaries WHERE timestamp >= ts ORDER BY
timestamp ASC`; with no prior digest, `SELECT * FROM summaries` — note the
second query has no `ORDER BY` clause, so it returns the table in storage
order. -/
def loadPending (st : Storage) : Option (Int × Int) → List Summary
  | some p => List.insertionSort tsLe (st.summaries.filter (fun s => p.2 ≤ s.timestamp))
  | none => st.summaries

/-- The pending set a cycle over storage `st` works on: watermark resolution
followed by the pending-set load. -/
def pendingOf (st : Storage) : List Summary :=
  loadPending st (lastRecapQuery st.daily_digests)

/-- The input string handed to the summarization client: the `text` fields of
the pending summaries joined by a single space (`Vec::join(" ")`). -/
def concatInput (st : Storage) : String :=
  String.intercalate " " ((pendingOf st).map (fun s => s.text))

/-- Observable effects of one cycle beyond storage: the log lines, the input
sent to the summarization client (if it was called), and the `content`
string of the webhook payload (if a POST was attempted). -/
structure Effects where
  logs : List String
  summarizeInput : Option String
  notifyPayload : Option String
deriving DecidableEq, Repr

/-- Result of one loop iteration: either a Rust panic (an `unwrap` on an
`Err`), which kills the process, or normal completion with the new storage
state and the cycle's effects. -/
inductive CycleResult where
  | crash (msg : String)
  | done (st : Storage) (fx : Effects)
deriving DecidableEq, Repr

/-- Outcomes of the external dependencies during one tick, plus the summaries
appended to the `summaries` table by the (out-of-scope) upstream writer
since the previous tick. -/
structure CycleEnv where
  arrivals : List Summary
  lastRecapFails : Bool
  pendingFails : Bool
  summarize : String → Except String String
  insertFails : Bool
  now : Int
  freshId : Int
  webhook : Option String
  postStatus : Option Nat

/-- Modelled from the spec: `db::insert_daily_digest` (the `db` module is not
under `src/`).  Per §6, the insert-digest operation takes
`(text, covered_summary_ids)`, appends a single digest row whose timestamp
is the current time assigned by the storage layer or caller, and returns
success or a `StorageWriteError`; the write is atomic, so on failure the
store is unchanged. -/
def insert_daily_digest (env : CycleEnv) (st : Storage) (text : String)
    (ids : List Int) : Except String Storage :=
  if env.insertFails then Except.error "StorageWriteError"
  else Except.ok
    { st with daily_digests :=
        st.daily_digests ++ [⟨env.freshId, text, env.now, ids⟩] }

/-- Panic message of `Result::unwrap` applied to a storage read error. -/
def unwrapMsg : String := "called unwrap on an Err value: StorageReadError"

/-- Log lines of the webhook block (lines 77-98 of `digests.rs`), given the
POST outcome: 2xx success, non-2xx status, or transport error. -/
def notifyLog (env : CycleEnv) : String :=
  match env.postStatus with
  | some status =>
      if 200 ≤ status ∧ status < 300 then
        "Successfully sent daily digest to Discord webhook"
      else
        "Failed to send daily digest to Discord webhook. Status: " ++ toString status
  | none => "Error sending daily digest to Discord webhook"

/-- One iteration of the `loop` in `DailyRecapService::run` (lines 26-99 of
`digests.rs`), as a function of the dependency outcomes and the storage
state.  The two read queries are `unwrap`ped in the source, hence the
`crash` branches. -/
def runCycle (env : CycleEnv) (st : Storage) : CycleResult :=
  let log0 := ["Running daily recap of summaries..."]
  if env.lastRecapFails then CycleResult.crash unwrapMsg else
  if env.pendingFails then CycleResult.crash unwrapMsg else
  let summaries := pendingOf st
  if summaries.isEmpty then
    CycleResult.done st
      { logs := log0 ++ ["No summaries to recap"],
        summarizeInput := none, notifyPayload := none }
  else
    let summary_ids := summaries.map (fun s => s.id)
    let summaries_content := concatInput st
    match env.summarize summaries_content with
    | Except.error e =>
        CycleResult.done st
          { logs := log0 ++ ["Could not summarize daily digest: " ++ e],
            summarizeInput := some summaries_content, notifyPayload := none }
    | Except.ok digest =>
        match insert_daily_digest env st digest summary_ids with
        | Except.error e =>
            CycleResult.done st
              { logs := log0 ++ ["Obtained a summarized daily digest: " ++ digest,
                  "Could not insert summarized daily digest into DB: " ++ e],
                summarizeInput := some summaries_content, notifyPayload := none }
        | Except.ok st2 =>
            let okLogs := log0 ++ ["Obtained a summarized daily digest: " ++ digest,
              "Saved daily digest to DB"]
            match env.webhook with
            | some _url =>
                CycleResult.done st2
                  { logs := okLogs ++ [notifyLog env],
                    summarizeInput := some summaries_content,
                    notifyPayload := some ("Daily Digest: " ++ digest) }
            | none =>
                CycleResult.done st2
                  { logs := okLogs ++ ["DISCORD_WEBHOOK environment variable not set"],
                    summarizeInput := some summaries_content,
                    notifyPayload := none }

/-- Storage after the out-of-scope upstream writer has appended the tick's
new summaries. -/
def appendArrivals (env : CycleEnv) (st : Storage) : Storage :=
  { st with summaries := st.summaries ++ env.arrivals }

/-- The scheduler: cycles run strictly sequentially, one per tick; a panic
kills the process, leaving the durable store as it was. -/
def runTrace : List CycleEnv → Storage → Storage
  | [], st => st
  | env :: envs, st =>
      let st1 := appendArrivals env st
      match runCycle env st1 with
      | CycleResult.crash _ => st1
      | CycleResult.done st2 _ => runTrace envs st2

/-- Storage after a completed (non-crashing) cycle. -/
def CycleResult.storageAfter : CycleResult → Option Storage
  | CycleResult.crash _ => none
  | CycleResult.done st _ => some st

/-- The webhook payload content of a cycle, when a POST was attempted. -/
def CycleResult.notified : CycleResult → Option String
  | CycleResult.crash _ => none
  | CycleResult.done _ fx => fx.notifyPayload

/-- The input sent to the summarization client during a cycle, if any. -/
def CycleResult.summarized : CycleResult → Option String
  | CycleResult.crash _ => none
  | CycleResult.done _ fx => fx.summarizeInput

/-- Clock sanity of a trace: at each executed cycle, every summary present in
storage at that tick has a timestamp strictly earlier than the cycle's
current time `now` (the timestamp the cycle would assign to its digest). -/
def clockAhead : List CycleEnv → Storage → Bool
  | [], _ => true
  | env :: envs, st =>
      let st1 := appendArrivals env st
      st1.summaries.all (fun s => decide (s.timestamp < env.now)) &&
      (match runCycle env st1 with
       | CycleResult.crash _ => true
       | CycleResult.done st2 _ => clockAhead envs st2)

/-- Covered-id sets of two digests do not intersect. -/
def DisjointCovered (d1 d2 : Digest) : Prop :=
  ∀ i ∈ d1.covered_summary_ids, i ∉ d2.covered_summary_ids

instance : DecidableRel DisjointCovered := fun d1 d2 =>
  inferInstanceAs (Decidable (∀ i ∈ d1.covered_summary_ids, i ∉ d2.covered_summary_ids))

/-- Invariant carried across cycles: the stored digests have pairwise
disjoint covered-id sets, and every covered id is the id of a stored summary
strictly older than its digest. -/
def CoveredOk (st : Storage) : Prop :=
  st.daily_digests.Pairwise DisjointCovered ∧
  ∀ d ∈ st.daily_digests, ∀ i ∈ d.covered_summary_ids,
    ∃ s ∈ st.summaries, s.id = i ∧ s.timestamp < d.timestamp

/-- All summaries appended by the upstream writer over a whole trace. -/
def allArrivals : List CycleEnv → List Summary
  | [] => []
  | e :: es => e.arrivals ++ allArrivals es

/-- Fixture: a store holding one summary with timestamp 5 and no digest. -/
def oneSummarySt : Storage := ⟨[⟨1, "a", 5⟩], []⟩

/-- Fixture: a healthy cycle whose clock reads 5 — the very timestamp of the
stored summary (a summary written in the same instant the cycle runs). -/
def tickAt5 : CycleEnv := ⟨[], false, false, fun _ => Except.ok "d1", false, 5, 1, none, none⟩

/-- Fixture: a healthy follow-up cycle at time 6. -/
def tickAt6 : CycleEnv := ⟨[], false, false, fun _ => Except.ok "d2", false, 6, 2, none, none⟩

/-- Fixture: a healthy cycle at time 6 producing digest text d1. -/
def lateTick6 : CycleEnv := ⟨[], false, false, fun _ => Except.ok "d1", false, 6, 1, none, none⟩

/-- Fixture: a healthy cycle at time 9 before which the upstream writer has
appended a second summary with timestamp 8. -/
def arriveTick9 : CycleEnv :=
  ⟨[⟨2, "b", 8⟩], false, false, fun _ => Except.ok "d2", false, 9, 2, none, none⟩

/-- Fixture: the spec §8 scenario store — summaries (1,a,t1), (2,b,t2),
(3,c,t3) with t1 < t2 < t3 and no prior digest. -/
def scenarioSt : Storage := ⟨[⟨1, "a", 1⟩, ⟨2, "b", 2⟩, ⟨3, "c", 3⟩], []⟩

/-- Fixture: the spec §8 scenario environment — the summarization client
returns d1 exactly on input "a b c", the webhook is configured, and the
POST succeeds. -/
def scenarioEnv : CycleEnv :=
  ⟨[], false, false,
    fun s => if s = "a b c" then Except.ok "d1" else Except.error "unexpected input",
    false, 10, 101, some "u", some 200⟩

lemma mem_loadPending_some (st : Storage) (p : Int × Int) (s : Summary) :
    s ∈ loadPending st (some p) ↔ s ∈ st.summaries ∧ p.2 ≤ s.timestamp := by
  simp [loadPending, List.mem_insertionSort, List.mem_filter]

lemma mem_loadPending (st : Storage) (lr : Option (Int × Int)) (s : Summary)
    (h : s ∈ loadPending st lr) : s ∈ st.summaries := by
  cases lr with
  | none => exact h
  | some p => exact ((mem_loadPending_some st p s).1 h).1

lemma lastRecapQuery_eq_none (ds : List Digest) (h : lastRecapQuery ds = none) :
    ds = [] := by
  cases ds with
  | nil => rfl
  | cons a as =>
      exfalso
      simp only [lastRecapQuery] at h
      split at h
      · cases h
      · split at h
        · cases h
        · cases h

lemma lastRecapQuery_ge (ds : List Digest) (w : Int × Int)
    (h : lastRecapQuery ds = some w) : ∀ d ∈ ds, d.timestamp ≤ w.2 := by
  induction ds generalizing w with
  | nil => intro d hd; cases hd
  | cons a as ih =>
      intro d hd
      simp only [lastRecapQuery] at h
      split at h
      · rename_i hq
        injection h with h
        subst h
        rcases List.mem_cons.mp hd with rfl | hmem
        · exact le_refl _
        · rw [lastRecapQuery_eq_none as hq] at hmem; cases hmem
      · rename_i p hq
        split at h
        · rename_i hlt
          injection h with h
          subst h
          rcases List.mem_cons.mp hd with rfl | hmem
          · exact le_refl _
          · exact le_trans (ih p hq d hmem) (le_of_lt hlt)
        · rename_i hlt
          injection h with h
          subst h
          rcases List.mem_cons.mp hd with rfl | hmem
          · exact not_lt.mp hlt
          · exact ih p hq d hmem

/-- C1: when a prior digest exists with timestamp `ts`, the pending-set
loader returns exactly the summaries with `timestamp >= ts` (the boundary is
inclusive: a summary whose timestamp equals `ts` is in the result), ordered
ascending by timestamp. -/
theorem c1_pending_watermark (st : Storage) (i ts : Int) :
    (loadPending st (some (i, ts))).Perm
        (st.summaries.filter (fun s => ts ≤ s.timestamp))
    ∧ (loadPending st (some (i, ts))).Sorted tsLe
    ∧ (∀ s, s ∈ loadPending st (some (i, ts)) ↔
        s ∈ st.summaries ∧ ts ≤ s.timestamp) :=
  ⟨List.perm_insertionSort _ _, List.sorted_insertionSort _ _,
    fun s => mem_loadPending_some st (i, ts) s⟩

/-- C1 witness: a summary whose timestamp exactly equals the watermark is
included in the pending set. -/
theorem c1_pending_watermark_witness :
    (⟨1, "a", (5 : Int)⟩ : Summary) ∈
      loadPending ⟨[⟨1, "a", 5⟩], []⟩ (some (7, 5)) :=
  ((c1_pending_watermark ⟨[⟨1, "a", 5⟩], []⟩ 7 5).2.2 ⟨1, "a", 5⟩).2
    ⟨by decide, by decide⟩

/-- C3: the claim says a storage read error during watermark resolution or
pending-set loading is logged, aborts only the current cycle and the loop
continues; the code instead calls `.unwrap()` on both read queries, so a
read error panics and kills the process (both fault positions shown). -/
theorem c3_read_fault_crashes :
    runCycle ⟨[], true, false, fun _ => Except.ok "d", false, 0, 0, none, none⟩
        ⟨[], []⟩ = CycleResult.crash unwrapMsg
    ∧ runCycle ⟨[], false, true, fun _ => Except.ok "d", false, 0, 0, none, none⟩
        ⟨[], []⟩ = CycleResult.crash unwrapMsg :=
  ⟨rfl, rfl⟩

/-- C6 counterexample: with no prior digest the query has no ORDER BY, so the
loader returns storage order; with storage holding timestamps 10 then 5 the
result is not ascending by timestamp, refuting the ordering part of the
claim. -/
theorem c6_counterexample :
    ¬ (loadPending ⟨[⟨1, "b", 10⟩, ⟨2, "a", 5⟩], []⟩
        (lastRecapQuery [])).Sorted tsLe := by
  decide

/-- C6 amended: when no prior digest exists (empty digest table, watermark
query returns none), the pending-set loader returns all Summary records in
storage order; the query has no ORDER BY clause, so no ascending-timestamp
ordering is guaranteed. -/
theorem c6_no_watermark_all (st : Storage) (h : st.daily_digests = []) :
    pendingOf st = st.summaries := by
  rw [pendingOf, h]
  rfl

/-- C6 witness: on a concrete store with two summaries and no digest, the
pending set is the full summaries table. -/
theorem c6_no_watermark_all_witness :
    pendingOf ⟨[⟨1, "b", 10⟩, ⟨2, "a", 5⟩], []⟩
      = [⟨1, "b", 10⟩, ⟨2, "a", 5⟩] :=
  c6_no_watermark_all ⟨[⟨1, "b", 10⟩, ⟨2, "a", 5⟩], []⟩ rfl

/-- C7: a cycle whose pending set is empty (and whose reads succeed)
terminates cleanly: storage is returned unchanged in every field, the
summarization client is not called, no notification is attempted, and the
only effects are the two log lines. -/
theorem c7_empty_noop (env : CycleEnv) (st : Storage)
    (h1 : env.lastRecapFails = false) (h2 : env.pendingFails = false)
    (h3 : pendingOf st = []) :
    runCycle env st = CycleResult.done st
      { logs := ["Running daily recap of summaries...", "No summaries to recap"],
        summarizeInput := none, notifyPayload := none } := by
  simp [runCycle, h1, h2, h3]

/-- C7 witness: an empty store with healthy dependencies yields the clean
no-op cycle. -/
theorem c7_empty_noop_witness :
    runCycle ⟨[], false, false, fun _ => Except.ok "d", false, 9, 1, some "u", some 200⟩
        ⟨[], []⟩ = CycleResult.done ⟨[], []⟩
      { logs := ["Running daily recap of summaries...", "No summaries to recap"],
        summarizeInput := none, notifyPayload := none } :=
  c7_empty_noop _ _ rfl rfl rfl

lemma runCycle_anatomy (env : CycleEnv) (st : Storage) :
    ((env.lastRecapFails = true ∨ env.pendingFails = true)
        ∧ runCycle env st = CycleResult.crash unwrapMsg)
  ∨ (∃ fx, runCycle env st = CycleResult.done st fx ∧ fx.notifyPayload = none)
  ∨ (∃ digest fx, env.summarize (concatInput st) = Except.ok digest
      ∧ env.insertFails = false
      ∧ runCycle env st = CycleResult.done
          { st with daily_digests := st.daily_digests
              ++ [⟨env.freshId, digest, env.now, (pendingOf st).map (fun s => s.id)⟩] } fx
      ∧ fx.summarizeInput = some (concatInput st)
      ∧ fx.notifyPayload = env.webhook.map (fun _ => "Daily Digest: " ++ digest)) := by
  by_cases h1 : env.lastRecapFails = true
  · exact Or.inl ⟨Or.inl h1, by simp [runCycle, h1]⟩
  by_cases h2 : env.pendingFails = true
  · exact Or.inl ⟨Or.inr h2, by simp [runCycle, h1, h2]⟩
  by_cases hemp : (pendingOf st).isEmpty = true
  · refine Or.inr (Or.inl ⟨⟨["Running daily recap of summaries...", "No summaries to recap"],
      none, none⟩, ?_, rfl⟩)
    simp [runCycle, h1, h2, hemp]
  cases hsum : env.summarize (concatInput st) with
  | error e =>
      refine Or.inr (Or.inl ⟨⟨["Running daily recap of summaries...",
        "Could not summarize daily digest: " ++ e], some (concatInput st), none⟩, ?_, rfl⟩)
      simp [runCycle, h1, h2, hemp, hsum]
  | ok digest =>
      by_cases hins : env.insertFails = true
      · refine Or.inr (Or.inl ⟨⟨["Running daily recap of summaries...",
          "Obtained a summarized daily digest: " ++ digest,
          "Could not insert summarized daily digest into DB: " ++ "StorageWriteError"],
          some (concatInput st), none⟩, ?_, rfl⟩)
        simp [runCycle, h1, h2, hemp, hsum, insert_daily_digest, hins]
      · cases hweb : env.webhook with
        | some url =>
            refine Or.inr (Or.inr ⟨digest, ⟨["Running daily recap of summaries...",
              "Obtained a summarized daily digest: " ++ digest,
              "Saved daily digest to DB", notifyLog env],
              some (concatInput st), some ("Daily Digest: " ++ digest)⟩,
              rfl, by simpa using hins, ?_, rfl, by simp [hweb]⟩)
            simp [runCycle, h1, h2, hemp, hsum, insert_daily_digest, hins, hweb]
        | none =>
            refine Or.inr (Or.inr ⟨digest, ⟨["Running daily recap of summaries...",
              "Obtained a summarized daily digest: " ++ digest,
              "Saved daily digest to DB", "DISCORD_WEBHOOK environment variable not set"],
              some (concatInput st), none⟩,
              rfl, by simpa using hins, ?_, rfl, by simp [hweb]⟩)
            simp [runCycle, h1, h2, hemp, hsum, insert_daily_digest, hins, hweb]

/-- C4: if the summarization call fails, or the digest persistence write
fails, the cycle completes with storage unchanged in every field (no digest
row written, so the watermark cannot advance) and the notifier is never
invoked. -/
theorem c4_failure_isolation (env : CycleEnv) (st : Storage)
    (h1 : env.lastRecapFails = false) (h2 : env.pendingFails = false)
    (h3 : (∃ e, env.summarize (concatInput st) = Except.error e)
          ∨ env.insertFails = true) :
    (runCycle env st).storageAfter = some st
    ∧ (runCycle env st).notified = none := by
  rcases runCycle_anatomy env st with ⟨hfl, _⟩ | ⟨fx, he, hn⟩ | ⟨digest, fx, hsum, hins, _, _, _⟩
  · rcases hfl with hfl | hfl
    · rw [h1] at hfl; cases hfl
    · rw [h2] at hfl; cases hfl
  · rw [he]
    exact ⟨rfl, hn⟩
  · exfalso
    rcases h3 with ⟨e, he⟩ | hins2
    · rw [hsum] at he; cases he
    · rw [hins] at hins2; cases hins2

/-- C4 witness: a failing summarization call on a one-summary store leaves
storage unchanged and sends no notification. -/
theorem c4_failure_isolation_witness :
    (runCycle ⟨[], false, false, fun _ => Except.error "boom", false, 9, 1, some "u", some 200⟩
        ⟨[⟨1, "a", 5⟩], []⟩).storageAfter = some ⟨[⟨1, "a", 5⟩], []⟩
    ∧ (runCycle ⟨[], false, false, fun _ => Except.error "boom", false, 9, 1, some "u", some 200⟩
        ⟨[⟨1, "a", 5⟩], []⟩).notified = none :=
  c4_failure_isolation _ _ rfl rfl (Or.inl ⟨"boom", rfl⟩)

lemma storageAfter_ignores_notify (env : CycleEnv) (st : Storage)
    (w : Option String) (q : Option Nat) :
    (runCycle { env with webhook := w, postStatus := q } st).storageAfter
      = (runCycle env st).storageAfter := by
  by_cases h1 : env.lastRecapFails = true
  · simp [runCycle, h1]
  by_cases h2 : env.pendingFails = true
  · simp [runCycle, h1, h2]
  by_cases hemp : (pendingOf st).isEmpty = true
  · simp [runCycle, h1, h2, hemp]
  cases hsum : env.summarize (concatInput st) with
  | error e => simp [runCycle, h1, h2, hemp, hsum, CycleResult.storageAfter]
  | ok digest =>
      by_cases hins : env.insertFails = true
      · simp [runCycle, h1, h2, hemp, hsum, insert_daily_digest, hins,
          CycleResult.storageAfter]
      · cases w <;> cases hweb : env.webhook <;>
          simp [runCycle, h1, h2, hemp, hsum, insert_daily_digest, hins, hweb,
            CycleResult.storageAfter]

/-- C5: a notification is attempted only in cycles whose digest was already
persisted (the resulting storage holds the freshly appended digest row), and
the notification parameters (webhook configuration and POST outcome) have no
influence on the resulting storage — a missing webhook, a non-2xx status or
a transport error never rolls the digest back, aborts the cycle, or turns it
into a crash. -/
theorem c5_notify_best_effort (env : CycleEnv) (st : Storage) :
    (∀ p, (runCycle env st).notified = some p →
        ∃ d fx, runCycle env st = CycleResult.done
            { st with daily_digests := st.daily_digests ++ [d] } fx)
    ∧ ∀ w q, (runCycle { env with webhook := w, postStatus := q } st).storageAfter
        = (runCycle env st).storageAfter := by
  constructor
  · intro p hp
    rcases runCycle_anatomy env st with ⟨_, he⟩ | ⟨fx, he, hn⟩ | ⟨digest, fx, _, _, he, _, hn⟩
    · rw [he] at hp; cases hp
    · rw [he] at hp
      simp only [CycleResult.notified] at hp
      rw [hn] at hp; cases hp
    · exact ⟨_, fx, he⟩
  · intro w q
    exact storageAfter_ignores_notify env st w q

/-- C5 witness: on a concrete successful cycle the payload is delivered only
with the digest already persisted, and replacing the webhook by a missing
configuration leaves the resulting storage identical. -/
theorem c5_notify_best_effort_witness :
    (∃ d fx, runCycle ⟨[], false, false, fun _ => Except.ok "d1", false, 9, 1, some "u", some 500⟩
        ⟨[⟨1, "a", 5⟩], []⟩ = CycleResult.done
          { Storage.mk [⟨1, "a", 5⟩] [] with
              daily_digests := ([] : List Digest) ++ [d] } fx)
    ∧ (runCycle ⟨[], false, false, fun _ => Except.ok "d1", false, 9, 1, none, none⟩
        ⟨[⟨1, "a", 5⟩], []⟩).storageAfter
      = (runCycle ⟨[], false, false, fun _ => Except.ok "d1", false, 9, 1, some "u", some 500⟩
        ⟨[⟨1, "a", 5⟩], []⟩).storageAfter :=
  ⟨(c5_notify_best_effort ⟨[], false, false, fun _ => Except.ok "d1", false, 9, 1, some "u", some 500⟩
      ⟨[⟨1, "a", 5⟩], []⟩).1 ("Daily Digest: " ++ "d1") (by decide),
    (c5_notify_best_effort ⟨[], false, false, fun _ => Except.ok "d1", false, 9, 1, some "u", some 500⟩
      ⟨[⟨1, "a", 5⟩], []⟩).2 none none⟩

/-- C9: whenever a cycle attempts the webhook POST, the digest text embedded
in the payload content is exactly the text of the digest row persisted by
that cycle. -/
theorem c9_payload_matches_persisted (env : CycleEnv) (st st2 : Storage)
    (fx : Effects) (p : String)
    (h : runCycle env st = CycleResult.done st2 fx)
    (hp : fx.notifyPayload = some p) :
    ∃ d, st2.daily_digests = st.daily_digests ++ [d]
      ∧ p = "Daily Digest: " ++ d.text := by
  rcases runCycle_anatomy env st with ⟨_, he⟩ | ⟨fx', he, hn⟩ | ⟨digest, fx', _, _, he, _, hn⟩
  · rw [h] at he; cases he
  · rw [h] at he
    injection he with h1 h2
    subst h1; subst h2
    rw [hn] at hp; cases hp
  · rw [h] at he
    injection he with h1 h2
    subst h1; subst h2
    refine ⟨⟨env.freshId, digest, env.now, (pendingOf st).map (fun s => s.id)⟩, rfl, ?_⟩
    rw [hn] at hp
    cases hweb : env.webhook with
    | none => rw [hweb] at hp; cases hp
    | some u =>
        rw [hweb] at hp
        have hp2 : some ("Daily Digest: " ++ digest) = some p := hp
        injection hp2 with hp3
        exact hp3.symm

/-- C9 witness: on a concrete successful cycle with a configured webhook the
payload content equals the persisted digest text prefixed by the banner. -/
theorem c9_payload_matches_persisted_witness :
    ∃ d, (Storage.mk [⟨1, "a", 5⟩] [⟨7, "d1", 9, [1]⟩]).daily_digests
        = (Storage.mk [⟨1, "a", 5⟩] []).daily_digests ++ [d]
      ∧ "Daily Digest: d1" = "Daily Digest: " ++ d.text :=
  c9_payload_matches_persisted
    ⟨[], false, false, fun _ => Except.ok "d1", false, 9, 7, some "u", some 200⟩
    ⟨[⟨1, "a", 5⟩], []⟩ ⟨[⟨1, "a", 5⟩], [⟨7, "d1", 9, [1]⟩]⟩
    ⟨["Running daily recap of summaries...",
      "Obtained a summarized daily digest: " ++ "d1",
      "Saved daily digest to DB",
      "Successfully sent daily digest to Discord webhook"],
      some "a", some "Daily Digest: d1"⟩
    "Daily Digest: d1" (by decide) rfl

/-- C10: the covered-id list recorded with a digest created by a cycle is
exactly the id of each loaded pending summary, one entry per summary, in the
order the summaries were loaded; in particular its length is the number of
pending summaries (no deduplication, no reordering). -/
theorem c10_covered_ids (env : CycleEnv) (st st2 : Storage) (fx : Effects)
    (d : Digest) (h : runCycle env st = CycleResult.done st2 fx)
    (hd : st2.daily_digests = st.daily_digests ++ [d]) :
    d.covered_summary_ids = (pendingOf st).map (fun s => s.id)
    ∧ d.covered_summary_ids.length = (pendingOf st).length := by
  rcases runCycle_anatomy env st with ⟨_, he⟩ | ⟨fx', he, _⟩ | ⟨digest, fx', _, _, he, _, _⟩
  · rw [h] at he; cases he
  · rw [h] at he
    injection he with h1 _
    subst h1
    exfalso
    simp at hd
  · rw [h] at he
    injection he with h1 _
    subst h1
    have hlists : st.daily_digests
        ++ [⟨env.freshId, digest, env.now, (pendingOf st).map (fun s => s.id)⟩]
        = st.daily_digests ++ [d] := hd
    have hsing := List.append_cancel_left hlists
    injection hsing with hdd _
    rw [← hdd]
    exact ⟨rfl, by simp⟩

/-- C10 witness: on a concrete two-summary cycle the persisted covered-id
list is the loaded ids in order, with matching length. -/
theorem c10_covered_ids_witness :
    (Digest.mk 7 "d1" 9 [1, 2]).covered_summary_ids
        = (pendingOf ⟨[⟨1, "a", 5⟩, ⟨2, "b", 6⟩], []⟩).map (fun s => s.id)
    ∧ (Digest.mk 7 "d1" 9 [1, 2]).covered_summary_ids.length
        = (pendingOf ⟨[⟨1, "a", 5⟩, ⟨2, "b", 6⟩], []⟩).length :=
  c10_covered_ids
    ⟨[], false, false, fun _ => Except.ok "d1", false, 9, 7, none, none⟩
    ⟨[⟨1, "a", 5⟩, ⟨2, "b", 6⟩], []⟩
    ⟨[⟨1, "a", 5⟩, ⟨2, "b", 6⟩], [⟨7, "d1", 9, [1, 2]⟩]⟩
    ⟨["Running daily recap of summaries...",
      "Obtained a summarized daily digest: " ++ "d1",
      "Saved daily digest to DB",
      "DISCORD_WEBHOOK environment variable not set"],
      some "a b", none⟩
    ⟨7, "d1", 9, [1, 2]⟩ (by decide) (by decide)

/-- C8 counterexample: on a first-ever cycle (no prior digest) the pending
query has no ORDER BY, so with storage order b(t=10), a(t=5) the input
actually handed to the summarization client is "b a", not the
ascending-timestamp concatenation "a b" the claim requires. -/
theorem c8_counterexample :
    (runCycle ⟨[], false, false, fun _ => Except.ok "d1", false, 20, 1, some "u", some 200⟩
        ⟨[⟨1, "b", 10⟩, ⟨2, "a", 5⟩], []⟩).summarized = some "b a"
    ∧ (runCycle ⟨[], false, false, fun _ => Except.ok "d1", false, 20, 1, some "u", some 200⟩
        ⟨[⟨1, "b", 10⟩, ⟨2, "a", 5⟩], []⟩).summarized
      ≠ some (String.intercalate " "
          ((List.insertionSort tsLe [⟨1, "b", 10⟩, ⟨2, "a", 5⟩]).map (fun s => s.text))) := by
  decide

/-- C8 amended: for every non-empty pending set the summarization input is
the pending texts joined by a single space in loaded order (which is
ascending by timestamp whenever a prior digest exists; on the first-ever
cycle it is storage order), and every attempted webhook POST carries the
content "Daily Digest: " followed by the text the summarization client
returned. -/
theorem c8_summarize_and_payload (env : CycleEnv) (st : Storage)
    (h1 : env.lastRecapFails = false) (h2 : env.pendingFails = false)
    (h3 : pendingOf st ≠ []) :
    (runCycle env st).summarized
        = some (String.intercalate " " ((pendingOf st).map (fun s => s.text)))
    ∧ (∀ w, lastRecapQuery st.daily_digests = some w → (pendingOf st).Sorted tsLe)
    ∧ (∀ p, (runCycle env st).notified = some p →
        ∃ digest, env.summarize (concatInput st) = Except.ok digest
          ∧ p = "Daily Digest: " ++ digest) := by
  have hemp : ¬ ((pendingOf st).isEmpty = true) := by
    simpa [List.isEmpty_iff] using h3
  refine ⟨?_, ?_, ?_⟩
  · have hci : concatInput st
        = String.intercalate " " ((pendingOf st).map (fun s => s.text)) := rfl
    rw [← hci]
    cases hsum : env.summarize (concatInput st) with
    | error e =>
        simp [runCycle, h1, h2, hemp, hsum, CycleResult.summarized]
    | ok digest =>
        by_cases hins : env.insertFails = true
        · simp [runCycle, h1, h2, hemp, hsum, insert_daily_digest, hins,
            CycleResult.summarized]
        · cases hweb : env.webhook <;>
            simp [runCycle, h1, h2, hemp, hsum, insert_daily_digest, hins, hweb,
              CycleResult.summarized]
  · intro w hw
    rw [pendingOf, hw]
    exact List.sorted_insertionSort _ _
  · intro p hp
    rcases runCycle_anatomy env st with ⟨_, he⟩ | ⟨fx, he, hn⟩ | ⟨digest, fx, hsum, _, he, _, hn⟩
    · rw [he] at hp; cases hp
    · rw [he] at hp
      simp only [CycleResult.notified] at hp
      rw [hn] at hp; cases hp
    · rw [he] at hp
      simp only [CycleResult.notified] at hp
      rw [hn] at hp
      cases hweb : env.webhook with
      | none => rw [hweb] at hp; cases hp
      | some u =>
          rw [hweb] at hp
          have hp2 : some ("Daily Digest: " ++ digest) = some p := hp
          injection hp2 with hp3
          exact ⟨digest, hsum, hp3.symm⟩

/-- C8 witness: the spec §8 scenario — summaries (1,a,1), (2,b,2), (3,c,3),
no prior digest, client answering d1 on "a b c" — yields input "a b c", one
digest with text d1 covering [1, 2, 3], and the payload content
"Daily Digest: d1". -/
theorem c8_summarize_and_payload_witness :
    (runCycle scenarioEnv scenarioSt).summarized = some "a b c"
    ∧ (runCycle scenarioEnv scenarioSt).storageAfter
        = some ⟨[⟨1, "a", 1⟩, ⟨2, "b", 2⟩, ⟨3, "c", 3⟩], [⟨101, "d1", 10, [1, 2, 3]⟩]⟩
    ∧ (runCycle scenarioEnv scenarioSt).notified = some "Daily Digest: d1" :=
  ⟨((c8_summarize_and_payload scenarioEnv scenarioSt rfl rfl (by decide)).1).trans
      (by decide),
    by decide, by decide⟩

lemma coveredOk_appendArrivals (env : CycleEnv) (st : Storage)
    (h : CoveredOk st) : CoveredOk (appendArrivals env st) := by
  refine ⟨h.1, ?_⟩
  intro d hd i hi
  rcases h.2 d hd i hi with ⟨s, hs, hid, hts⟩
  exact ⟨s, List.mem_append_left _ hs, hid, hts⟩

lemma lastRecapQuery_mem_isSome (ds : List Digest) (d : Digest) (hd : d ∈ ds) :
    ∃ w, lastRecapQuery ds = some w := by
  cases hq : lastRecapQuery ds with
  | some w => exact ⟨w, rfl⟩
  | none => rw [lastRecapQuery_eq_none ds hq] at hd; cases hd

lemma coveredOk_step (env : CycleEnv) (st1 st2 : Storage) (fx : Effects)
    (hIds : (st1.summaries.map (fun s => s.id)).Nodup)
    (hClock : ∀ s ∈ st1.summaries, s.timestamp < env.now)
    (hInv : CoveredOk st1)
    (hrun : runCycle env st1 = CycleResult.done st2 fx) :
    CoveredOk st2 ∧ st2.summaries = st1.summaries := by
  rcases runCycle_anatomy env st1 with ⟨_, he⟩ | ⟨fx', he, _⟩ | ⟨digest, fx', _, _, he, _, _⟩
  · rw [hrun] at he; cases he
  · rw [hrun] at he
    injection he with h1 _
    subst h1
    exact ⟨hInv, rfl⟩
  · rw [hrun] at he
    injection he with h1 _
    subst h1
    refine ⟨⟨?_, ?_⟩, rfl⟩
    · show List.Pairwise DisjointCovered (st1.daily_digests
        ++ [⟨env.freshId, digest, env.now, (pendingOf st1).map (fun s => s.id)⟩])
      rw [List.pairwise_append]
      refine ⟨hInv.1, List.pairwise_singleton _ _, ?_⟩
      intro d hd D hD
      rcases List.mem_singleton.mp hD with rfl
      intro i hi hiD
      rcases List.mem_map.mp hiD with ⟨p, hp, hpid⟩
      rcases hInv.2 d hd i hi with ⟨s, hs, hsid, hsts⟩
      rcases lastRecapQuery_mem_isSome st1.daily_digests d hd with ⟨w, hw⟩
      have hpend : p ∈ loadPending st1 (some w) := by
        rw [pendingOf, hw] at hp
        exact hp
      have hpw := (mem_loadPending_some st1 w p).1 hpend
      have hsp : s = p :=
        List.inj_on_of_nodup_map hIds hs hpw.1 (by rw [hsid, hpid])
      have hws : w.2 ≤ s.timestamp := by
        rw [hsp]
        exact hpw.2
      have hd_le : d.timestamp ≤ w.2 := lastRecapQuery_ge st1.daily_digests w hw d hd
      exact absurd (lt_of_lt_of_le hsts (le_trans hd_le hws)) (lt_irrefl _)
    · intro d hd i hi
      rcases List.mem_append.mp hd with hdo | hdn
      · rcases hInv.2 d hdo i hi with ⟨s, hs, hsid, hsts⟩
        exact ⟨s, hs, hsid, hsts⟩
      · rcases List.mem_singleton.mp hdn with rfl
        rcases List.mem_map.mp hi with ⟨p, hp, hpid⟩
        have hpm : p ∈ st1.summaries :=
          mem_loadPending st1 (lastRecapQuery st1.daily_digests) p hp
        exact ⟨p, hpm, hpid, hClock p hpm⟩

lemma runTrace_coveredOk (envs : List CycleEnv) : ∀ (st : Storage),
    CoveredOk st →
    ((st.summaries ++ allArrivals envs).map (fun s => s.id)).Nodup →
    clockAhead envs st = true →
    CoveredOk (runTrace envs st) := by
  induction envs with
  | nil => intro st h _ _; exact h
  | cons e es ih =>
      intro st hInv hNd hCk
      have hInv1 : CoveredOk (appendArrivals e st) := coveredOk_appendArrivals e st hInv
      have hNd' : (((appendArrivals e st).summaries
          ++ allArrivals es).map (fun s => s.id)).Nodup := by
        simp only [appendArrivals, allArrivals] at hNd ⊢
        rw [← List.append_assoc] at hNd
        exact hNd
      have hNd1 : ((appendArrivals e st).summaries.map (fun s => s.id)).Nodup := by
        have h := hNd'
        rw [List.map_append] at h
        exact h.of_append_left
      have hCk' := hCk
      simp only [clockAhead] at hCk'
      rw [Bool.and_eq_true] at hCk'
      rcases hCk' with ⟨hAll, hRest⟩
      have hClock : ∀ s ∈ (appendArrivals e st).summaries, s.timestamp < e.now := by
        intro s hs
        exact of_decide_eq_true (List.all_eq_true.mp hAll s hs)
      show CoveredOk (match runCycle e (appendArrivals e st) with
        | CycleResult.crash _ => appendArrivals e st
        | CycleResult.done st2 _ => runTrace es st2)
      cases hrc : runCycle e (appendArrivals e st) with
      | crash m => exact hInv1
      | done st2 fx =>
          have hstep := coveredOk_step e (appendArrivals e st) st2 fx hNd1 hClock hInv1 hrc
          have hRest2 : clockAhead es st2 = true := by
            rw [hrc] at hRest
            exact hRest
          refine ih st2 hstep.1 ?_ hRest2
          rw [hstep.2]
          exact hNd'

/-- C2 counterexample: a summary whose timestamp equals the digest's assigned
timestamp is re-fetched by the inclusive `>=` watermark and covered a second
time, so two successfully created digests both cover summary id 1 and the
claimed unconditional disjointness fails. -/
theorem c2_counterexample :
    ¬ (runTrace [tickAt5, tickAt6] oneSummarySt).daily_digests.Pairwise
        DisjointCovered := by
  decide

/-- C2 amended: over any sequence of cycles started from a digest-free store,
if summary ids are globally unique and every cycle's clock (the timestamp it
would assign to its digest) is strictly later than the timestamp of every
summary present at that tick, then the covered-id sets of the successfully
created digests are pairwise disjoint. -/
theorem c2_covered_disjoint (envs : List CycleEnv) (st0 : Storage)
    (h0 : st0.daily_digests = [])
    (hIds : ((st0.summaries ++ allArrivals envs).map (fun s => s.id)).Nodup)
    (hCk : clockAhead envs st0 = true) :
    (runTrace envs st0).daily_digests.Pairwise DisjointCovered := by
  have hInv : CoveredOk st0 := by
    constructor
    · rw [h0]
      exact List.Pairwise.nil
    · intro d hd
      rw [h0] at hd
      cases hd
  exact (runTrace_coveredOk envs st0 hInv hIds hCk).1

/-- C2 witness: two healthy cycles — the first covering summary 1, the second
covering a freshly arrived summary 2 — produce digests with disjoint covered
sets under the amended hypotheses. -/
theorem c2_covered_disjoint_witness :
    (runTrace [lateTick6, arriveTick9] oneSummarySt).daily_digests.Pairwise
        DisjointCovered :=
  c2_covered_disjoint [lateTick6, arriveTick9] oneSummarySt rfl (by decide) (by decide)
